import Mathlib

/-!
# Verification of the course-site chat widget and its implied RAG core

This development embeds, in Lean 4, the client chat widget of the
physical-AI course website (two React implementations: the Docusaurus
`ChatbotWidget` and the original frontend `RAGChatbot`) together with the
minimal retrieval/synthesis core that the client contract implies (the
backend itself ships no code in this repository, so that part is modelled
from the specification).  Theorems at the end settle the stated
properties of the system.
-/

/-! ## Shared data shapes of the client widget -/

/-- A chat message as the widget stores it: the JS object literal has
`id`, `text`, `sender`, `timestamp`, and optionally `sources`,
`confidence`, `isError` (absent fields are modelled as `none` / `false`). -/
structure Message where
  id : Nat
  text : String
  sender : String
  timestamp : String
  sources : Option (List String) := none
  confidence : Option Rat := none
  isError : Bool := false
  deriving Repr, DecidableEq

/-- The parsed JSON body of a 200 response from `/chat`:
`{answer, sources, confidence}`. -/
structure ChatResponse where
  answer : String
  sources : List String
  confidence : Rat
  deriving Repr, DecidableEq

/-- The request payload the widget builds: `question` always present,
`module_context` / `chapter_context` present only when truthy
(`currentModule || undefined` drops the field for the empty string,
since `JSON.stringify` omits `undefined`-valued properties). -/
structure ChatRequest where
  question : String
  module_context : Option String
  chapter_context : Option String
  deriving Repr, DecidableEq

/-- An HTTP request as issued by `fetch` in `sendMessage`. -/
structure IssuedRequest where
  url : String
  method : String
  body : ChatRequest
  deriving Repr, DecidableEq

/-- Outcome of the `fetch` call: either the connection succeeded with a
status code and a body (`none` when `response.json()` fails to parse),
or the fetch / network layer failed. -/
inductive FetchResult where
  | success (status : Nat) (body : Option ChatResponse)
  | networkError
  deriving Repr, DecidableEq

/-- The React state of the widget relevant to `sendMessage`:
`messages`, `inputValue`, `isLoading`, `currentModule`, `currentChapter`
(plus `isOpen`, mutated only by `toggleChatbot`). -/
structure WidgetState where
  isOpen : Bool
  messages : List Message
  inputValue : String
  isLoading : Bool
  currentModule : String
  currentChapter : String
  deriving Repr, DecidableEq

/-! ## JS string primitives used by the widget -/

/-- Drop leading whitespace characters from a character list. -/
def dropLeadingWs : List Char → List Char
  | [] => []
  | c :: cs => if c.isWhitespace then dropLeadingWs cs else c :: cs

/-- Drop trailing whitespace characters from a character list. -/
def dropTrailingWs (l : List Char) : List Char :=
  (dropLeadingWs l.reverse).reverse

/-- The JS `String.prototype.trim()`: strip whitespace from both ends. -/
def jsTrim (s : String) : String :=
  String.mk (dropTrailingWs (dropLeadingWs s.toList))

/-- Accumulator pass of `jsSplit`. -/
def splitCharAux (sep : Char) : List Char → List Char → List (List Char)
  | [], acc => [acc.reverse]
  | c :: cs, acc =>
      if c = sep then acc.reverse :: splitCharAux sep cs []
      else splitCharAux sep cs (c :: acc)

/-- The JS `String.prototype.split(sep)` for a one-character separator:
`"".split("/")` is `[""]`, `"/".split("/")` is `["", ""]`. -/
def jsSplit (s : String) (sep : Char) : List String :=
  (splitCharAux sep s.toList []).map String.mk

/-! ## JSON serialization (mirrors `JSON.stringify` on the payload) -/

/-- One hexadecimal digit. -/
def hexDigit (n : Nat) : String :=
  if n = 0 then "0" else if n = 1 then "1" else if n = 2 then "2"
  else if n = 3 then "3" else if n = 4 then "4" else if n = 5 then "5"
  else if n = 6 then "6" else if n = 7 then "7" else if n = 8 then "8"
  else if n = 9 then "9" else if n = 10 then "a" else if n = 11 then "b"
  else if n = 12 then "c" else if n = 13 then "d" else if n = 14 then "e"
  else "f"

/-- Four-digit hexadecimal rendering as used by `\uXXXX` escapes. -/
def hex4 (n : Nat) : String :=
  hexDigit (n / 4096 % 16) ++ hexDigit (n / 256 % 16) ++
    hexDigit (n / 16 % 16) ++ hexDigit (n % 16)

/-- Escape a single character the way `JSON.stringify` does for string
values. -/
def jsonEscapeChar (c : Char) : String :=
  if c = '"' then "\\\""
  else if c = '\\' then "\\\\"
  else if c = '\n' then "\\n"
  else if c = '\r' then "\\r"
  else if c = '\t' then "\\t"
  else if c.toNat = 8 then "\\b"
  else if c.toNat = 12 then "\\f"
  else if c.toNat < 32 then "\\u" ++ hex4 c.toNat
  else String.singleton c

/-- Escape a string for inclusion in a JSON document. -/
def jsonEscape (s : String) : String :=
  String.join (s.toList.map jsonEscapeChar)

/-- A JSON string literal. -/
def jsonStr (s : String) : String :=
  "\"" ++ jsonEscape s ++ "\""

/-- The key/value pairs `JSON.stringify` actually emits for the request
object, in insertion order, skipping `undefined`-valued fields. -/
def chatRequestFields (r : ChatRequest) : List (String × String) :=
  ("question", r.question) ::
    ((match r.module_context with
      | some m => [("module_context", m)]
      | none => []) ++
     (match r.chapter_context with
      | some c => [("chapter_context", c)]
      | none => []))

/-- Serialization of the request body, as `JSON.stringify(requestBody)`
produces it. -/
def serializeChatRequest (r : ChatRequest) : String :=
  "\x7b" ++
    String.intercalate ","
      ((chatRequestFields r).map (fun kv => jsonStr kv.1 ++ ":" ++ jsonStr kv.2)) ++
  "\x7d"

/-! ## The Docusaurus widget (`ChatbotWidget.jsx`) -/

namespace ChatbotWidget

/-- The request payload built in `sendMessage`:
`{question: inputValue, module_context: currentModule || undefined,
chapter_context: currentChapter || undefined}`. -/
def buildRequestBody (input currentModule currentChapter : String) : ChatRequest :=
  { question := input
    module_context := if currentModule = "" then none else some currentModule
    chapter_context := if currentChapter = "" then none else some currentChapter }

/-- The user message object appended before the fetch. -/
def mkUserMessage (now : Nat) (text ts : String) : Message :=
  { id := now, text := text, sender := "user", timestamp := ts }

/-- The bot message object built from a parsed 200 response. -/
def mkBotMessage (id : Nat) (data : ChatResponse) (ts : String) : Message :=
  { id := id, text := data.answer, sender := "bot", timestamp := ts
    sources := some data.sources, confidence := some data.confidence }

/-- The fixed error message appended in the `catch` block. -/
def mkErrorMessage (id : Nat) (ts : String) : Message :=
  { id := id
    text := "Sorry, I encountered an error processing your question. Please try again."
    sender := "bot", timestamp := ts, isError := true }

/-- First, synchronous phase of `sendMessage`: the blank/loading guard,
appending the user message, clearing the input, raising `isLoading`, and
issuing the `fetch` to `API_BASE_URL + "/chat"`.  Returns the new state
and the request issued, `none` when the guard returned early. -/
def sendMessageStart (apiBase : String) (s : WidgetState) (now : Nat)
    (ts : String) : WidgetState × Option IssuedRequest :=
  if jsTrim s.inputValue = "" ∨ s.isLoading then (s, none)
  else
    ({ s with
        messages := s.messages ++ [mkUserMessage now s.inputValue ts]
        inputValue := ""
        isLoading := true },
     some { url := apiBase ++ "/chat", method := "POST"
            body := buildRequestBody s.inputValue s.currentModule s.currentChapter })

/-- Second phase of `sendMessage`: handling the fetch outcome.  A non-ok
status throws before the body is read; a rejected fetch or a JSON parse
failure lands in the same `catch`; the `finally` clears `isLoading`. -/
def sendMessageFinish (s : WidgetState) (now : Nat) (ts : String)
    (res : FetchResult) : WidgetState :=
  match res with
  | FetchResult.success status body =>
      if 200 ≤ status ∧ status ≤ 299 then
        match body with
        | some data =>
            { s with messages := s.messages ++ [mkBotMessage (now + 1) data ts]
                     isLoading := false }
        | none =>
            { s with messages := s.messages ++ [mkErrorMessage (now + 1) ts]
                     isLoading := false }
      else
        { s with messages := s.messages ++ [mkErrorMessage (now + 1) ts]
                 isLoading := false }
  | FetchResult.networkError =>
      { s with messages := s.messages ++ [mkErrorMessage (now + 1) ts]
               isLoading := false }

/-- The whole `sendMessage` call, with the fetch outcome supplied as a
parameter.  Returns the final state and the request issued (if any). -/
def sendMessage (apiBase : String) (s : WidgetState) (now : Nat)
    (ts : String) (res : FetchResult) : WidgetState × Option IssuedRequest :=
  match sendMessageStart apiBase s now ts with
  | (s1, none) => (s1, none)
  | (s1, some r) => (sendMessageFinish s1 now ts res, some r)

/-- The mount-time `useEffect` that derives `(currentModule, currentChapter)`
from `window.location.pathname`: split on `/`; with at least three parts,
the third becomes the module unless it is the literal `"modules"`, and the
fourth (when present) becomes the chapter. -/
def pageContext (pathname : String) : String × String :=
  let pathParts := jsSplit pathname '/'
  if 3 ≤ pathParts.length then
    let moduleSection := pathParts.getD 2 ""
    let m := if moduleSection ≠ "modules" then moduleSection else ""
    let c := if 4 ≤ pathParts.length then pathParts.getD 3 "" else ""
    (m, c)
  else ("", "")

end ChatbotWidget

/-! ## The original frontend widget (`RAGChatbot.jsx`) -/

namespace RAGChatbot

/-- Request payload built in `RAGChatbot.sendMessage`. -/
def buildRequestBody (input currentModule currentChapter : String) : ChatRequest :=
  { question := input
    module_context := if currentModule = "" then none else some currentModule
    chapter_context := if currentChapter = "" then none else some currentChapter }

/-- User message appended by `RAGChatbot.sendMessage`. -/
def mkUserMessage (now : Nat) (text ts : String) : Message :=
  { id := now, text := text, sender := "user", timestamp := ts }

/-- Bot message built by `RAGChatbot.sendMessage` from a 200 response. -/
def mkBotMessage (id : Nat) (data : ChatResponse) (ts : String) : Message :=
  { id := id, text := data.answer, sender := "bot", timestamp := ts
    sources := some data.sources, confidence := some data.confidence }

/-- Error message appended in the `catch` block of `RAGChatbot.sendMessage`. -/
def mkErrorMessage (id : Nat) (ts : String) : Message :=
  { id := id
    text := "Sorry, I encountered an error processing your question. Please try again."
    sender := "bot", timestamp := ts, isError := true }

/-- Synchronous phase of `RAGChatbot.sendMessage` (guard, user message,
input clear, loading flag, fetch to `/chat`). -/
def sendMessageStart (apiBase : String) (s : WidgetState) (now : Nat)
    (ts : String) : WidgetState × Option IssuedRequest :=
  if jsTrim s.inputValue = "" ∨ s.isLoading then (s, none)
  else
    ({ s with
        messages := s.messages ++ [mkUserMessage now s.inputValue ts]
        inputValue := ""
        isLoading := true },
     some { url := apiBase ++ "/chat", method := "POST"
            body := buildRequestBody s.inputValue s.currentModule s.currentChapter })

/-- Response-handling phase of `RAGChatbot.sendMessage`. -/
def sendMessageFinish (s : WidgetState) (now : Nat) (ts : String)
    (res : FetchResult) : WidgetState :=
  match res with
  | FetchResult.success status body =>
      if 200 ≤ status ∧ status ≤ 299 then
        match body with
        | some data =>
            { s with messages := s.messages ++ [mkBotMessage (now + 1) data ts]
                     isLoading := false }
        | none =>
            { s with messages := s.messages ++ [mkErrorMessage (now + 1) ts]
                     isLoading := false }
      else
        { s with messages := s.messages ++ [mkErrorMessage (now + 1) ts]
                 isLoading := false }
  | FetchResult.networkError =>
      { s with messages := s.messages ++ [mkErrorMessage (now + 1) ts]
               isLoading := false }

/-- The whole `RAGChatbot.sendMessage` call. -/
def sendMessage (apiBase : String) (s : WidgetState) (now : Nat)
    (ts : String) (res : FetchResult) : WidgetState × Option IssuedRequest :=
  match sendMessageStart apiBase s now ts with
  | (s1, none) => (s1, none)
  | (s1, some r) => (sendMessageFinish s1 now ts res, some r)

end RAGChatbot

/-! ## The retrieval/synthesis core

The backend referenced by the widget ships no code in this repository;
the definitions below are modelled from the specification of the minimal
core retrieval service (Document Store chunks, `retrieve`, `synthesize`). -/

/-- Modelled from the spec: a Chunk of the Document Store (the backend is
absent from the repository).  Attributes per §3: identifier, source
document path, module tag, chapter tag, sequence position, raw text (the
embedding is abstracted into the similarity function the Retriever uses). -/
structure Chunk where
  id : String
  docPath : String
  moduleTag : String
  chapterTag : String
  seqPos : Nat
  text : String
  deriving Repr, DecidableEq

/-- Modelled from the spec: a Query per §3 — question text with optional
module and chapter filters. -/
structure Query where
  question : String
  moduleFilter : Option String
  chapterFilter : Option String
  deriving Repr, DecidableEq

/-- Modelled from the spec: the configuration constants the core consumes
(§6): top-K, the minimum similarity cutoff, and the low-confidence
threshold the refusal answer must stay below. -/
structure RetrievalConfig where
  topK : Nat
  cutoff : Rat
  lowConfidenceThreshold : Rat
  deriving Repr, DecidableEq

/-- Modelled from the spec: the synthesized Answer per §3. -/
structure Answer where
  text : String
  confidence : Rat
  sources : List String
  deriving Repr, DecidableEq

/-- Modelled from the spec: the hard pre-filter of §4.3 — a chunk is in
scope iff it matches the optional module and chapter filters. -/
def matchesScope (q : Query) (c : Chunk) : Bool :=
  (match q.moduleFilter with
   | none => true
   | some m => c.moduleTag == m) &&
  (match q.chapterFilter with
   | none => true
   | some ch => c.chapterTag == ch)

/-- Modelled from the spec: the ranking order of §4.3 — higher similarity
first, ties broken by earlier chunk sequence position. -/
def rankRel (a b : Chunk × Rat) : Prop :=
  b.2 < a.2 ∨ (a.2 = b.2 ∧ a.1.seqPos ≤ b.1.seqPos)

instance instDecRankRel : DecidableRel rankRel := fun a b =>
  decidable_of_iff (b.2 < a.2 ∨ (a.2 = b.2 ∧ a.1.seqPos ≤ b.1.seqPos)) Iff.rfl

instance instTotalRankRel : IsTotal (Chunk × Rat) rankRel where
  total a b := by
    rcases lt_trichotomy a.2 b.2 with h | h | h
    · exact Or.inr (Or.inl h)
    · rcases Nat.le_total a.1.seqPos b.1.seqPos with hs | hs
      · exact Or.inl (Or.inr ⟨h, hs⟩)
      · exact Or.inr (Or.inr ⟨h.symm, hs⟩)
    · exact Or.inl (Or.inl h)

instance instTransRankRel : IsTrans (Chunk × Rat) rankRel where
  trans a b c hab hbc := by
    rcases hab with h1 | ⟨e1, s1⟩
    · rcases hbc with h2 | ⟨e2, _⟩
      · exact Or.inl (h2.trans h1)
      · exact Or.inl (e2 ▸ h1)
    · rcases hbc with h2 | ⟨e2, s2⟩
      · exact Or.inl (e1 ▸ h2)
      · exact Or.inr ⟨e1.trans e2, s1.trans s2⟩

/-- Modelled from the spec: `retrieve(query, filter?)` per §4.3 — hard
pre-filter by scope, score each candidate with the similarity function,
drop candidates below the minimum cutoff, sort by descending similarity
(ties by earlier sequence position), and keep the top-K. -/
def retrieve (cfg : RetrievalConfig) (sim : Query → Chunk → Rat)
    (corpus : List Chunk) (q : Query) : List (Chunk × Rat) :=
  let candidates := corpus.filter (matchesScope q)
  let scored := candidates.map (fun c => (c, sim q c))
  let relevant := scored.filter (fun p => cfg.cutoff ≤ p.2)
  (List.insertionSort rankRel relevant).take cfg.topK

/-- Modelled from the spec: the explicit refusal text of §3 for questions
not covered by the course content. -/
def refusalAnswerText : String :=
  "This question is not covered by the course content."

/-- First-occurrence deduplication of source identifiers (§3: the source
list is deduplicated). -/
def dedupAux (seen : List String) : List String → List String
  | [] => []
  | x :: xs => if x ∈ seen then dedupAux seen xs else x :: dedupAux (x :: seen) xs

/-- Deduplicate a list of identifiers, keeping first occurrences in order. -/
def dedup (l : List String) : List String :=
  dedupAux [] l

/-- Modelled from the spec: `synthesize(query, RetrievalResult)` per §4.4.
When the retrieval result is empty it short-circuits to the refusal answer
(confidence 0, no sources) without invoking the generation collaborator
`gen`; otherwise the answer text comes from `gen` constrained to the
retrieved chunks, confidence combines the top score with the agreement
among the results (both combining functions are tunable parameters), and
the sources are the deduplicated chunk identifiers.  The returned flag
records whether the generation collaborator was invoked. -/
def synthesize (combine : Rat → Rat → Rat)
    (agree : List (Chunk × Rat) → Rat)
    (gen : Query → List Chunk → String) (q : Query)
    (r : List (Chunk × Rat)) : Answer × Bool :=
  match r with
  | [] => ({ text := refusalAnswerText, confidence := 0, sources := [] }, false)
  | (c, s) :: rest =>
      let entries := (c, s) :: rest
      let chunks := entries.map Prod.fst
      ({ text := gen q chunks
         confidence := combine s (agree entries)
         sources := dedup (chunks.map Chunk.id) }, true)

/-- Classification of fetch outcomes the `catch` block handles: a non-2xx
status, a body that fails to parse, or a network-level failure. -/
def isFailureOutcome (res : FetchResult) : Prop :=
  match res with
  | FetchResult.success status body => ¬(200 ≤ status ∧ status ≤ 299) ∨ body = none
  | FetchResult.networkError => True

/-! ## Concrete sample inputs used to exercise the theorems -/

/-- A two-chunk sample corpus (per the end-to-end scenarios of §8). -/
def sampleCorpus : List Chunk :=
  [⟨"ros2-1", "docs/ros2.md", "ros2", "nodes", 0, "ROS 2 uses nodes and topics"⟩,
   ⟨"sim-1", "docs/sim.md", "simulation", "gazebo", 1, "Gazebo simulates physics"⟩]

/-- Sample configuration with cutoff 1. -/
def sampleConfig : RetrievalConfig := ⟨3, 1, 1⟩

/-- Sample configuration with cutoff 0. -/
def filterConfig : RetrievalConfig := ⟨2, 0, 1⟩

/-- A similarity function scoring everything 0. -/
def zeroSim : Query → Chunk → Rat := fun _ _ => 0

/-- A similarity function preferring the ros2 chunk. -/
def moduleSim : Query → Chunk → Rat :=
  fun _ c => if c.moduleTag == "ros2" then 1 else 1 / 2

/-- A query with no relevant content in the sample corpus. -/
def quantumQuery : Query := ⟨"What is quantum computing?", none, none⟩

/-- A query carrying the module filter "ros2". -/
def nodeQuery : Query := ⟨"What is a node?", some "ros2", none⟩

/-- A confidence combiner returning the top score. -/
def constCombine : Rat → Rat → Rat := fun a _ => a

/-- An agreement measure returning 0. -/
def zeroAgree : List (Chunk × Rat) → Rat := fun _ => 0

/-- A stand-in generation collaborator. -/
def sampleGen : Query → List Chunk → String := fun _ _ => "generated"

/-- A sample widget state with a pending question on a ros2 page. -/
def sampleState : WidgetState :=
  ⟨true, [], "What is a ROS 2 node?", false, "ros2", "nodes"⟩

/-- A sample parsed 200 response body. -/
def sampleResponse : ChatResponse := ⟨"ROS 2 uses nodes.", ["ros2-1"], 9 / 10⟩

/-- The sample widget state with a different conversation history. -/
def sampleHistoryState : WidgetState :=
  { sampleState with
      isOpen := false
      messages := [⟨1, "hello", "user", "t0", none, none, false⟩,
                   ⟨2, "Hi there", "bot", "t1", some [], some 1, false⟩] }

/-! ## Helper lemmas -/

theorem dedupAux_subset (seen : List String) (l : List String) :
    ∀ y ∈ dedupAux seen l, y ∈ l := by
  induction l generalizing seen with
  | nil => intro y hy; simp [dedupAux] at hy
  | cons x xs ih =>
    intro y hy
    by_cases hx : x ∈ seen
    · simp only [dedupAux, if_pos hx] at hy
      exact List.mem_cons_of_mem _ (ih seen y hy)
    · simp only [dedupAux, if_neg hx, List.mem_cons] at hy
      rcases hy with h | h
      · exact h ▸ List.mem_cons_self x xs
      · exact List.mem_cons_of_mem _ (ih (x :: seen) y h)

theorem mem_dedup {l : List String} {y : String} (h : y ∈ dedup l) : y ∈ l :=
  dedupAux_subset [] l y h

theorem retrieve_mem (cfg : RetrievalConfig) (sim : Query → Chunk → Rat)
    (corpus : List Chunk) (q : Query) :
    ∀ p ∈ retrieve cfg sim corpus q,
      p.1 ∈ corpus ∧ matchesScope q p.1 = true ∧ cfg.cutoff ≤ p.2 ∧ p.2 = sim q p.1 := by
  intro p hp
  have h1 : p ∈ List.insertionSort rankRel
      (((corpus.filter (matchesScope q)).map (fun c => (c, sim q c))).filter
        (fun p => decide (cfg.cutoff ≤ p.2))) :=
    List.mem_of_mem_take hp
  have h2 := (List.perm_insertionSort rankRel _).mem_iff.mp h1
  have h3 := List.of_mem_filter h2
  have h4 := List.mem_of_mem_filter h2
  rcases List.mem_map.mp h4 with ⟨c, hc, hpc⟩
  have hc1 := List.mem_of_mem_filter hc
  have hc2 := List.of_mem_filter hc
  refine ⟨?_, ?_, ?_, ?_⟩
  · exact hpc ▸ hc1
  · exact hpc ▸ hc2
  · exact of_decide_eq_true h3
  · exact hpc ▸ rfl

theorem retrieve_eq_nil (cfg : RetrievalConfig) (sim : Query → Chunk → Rat)
    (corpus : List Chunk) (q : Query)
    (h : ∀ c ∈ corpus, matchesScope q c = true → sim q c < cfg.cutoff) :
    retrieve cfg sim corpus q = [] := by
  unfold retrieve
  have hnil : ((corpus.filter (matchesScope q)).map (fun c => (c, sim q c))).filter
      (fun p => decide (cfg.cutoff ≤ p.2)) = [] := by
    rw [List.filter_eq_nil_iff]
    intro p hp
    rcases List.mem_map.mp hp with ⟨c, hc, hpc⟩
    have hc1 := List.mem_of_mem_filter hc
    have hc2 := List.of_mem_filter hc
    have hlt := h c hc1 hc2
    subst hpc
    simpa using not_le.mpr hlt
  simp [hnil]

/-! ## Claim theorems -/

/-- C1: when no candidate chunk meets the minimum similarity cutoff, the
synthesized Answer is the explicit refusal ("not covered by course
content"), its confidence is below the low-confidence threshold, its
sources list is empty, and the generation collaborator is not invoked. -/
theorem claim_C1_refusal_without_generation
    (cfg : RetrievalConfig) (sim : Query → Chunk → Rat) (corpus : List Chunk)
    (q : Query) (combine : Rat → Rat → Rat) (agree : List (Chunk × Rat) → Rat)
    (gen : Query → List Chunk → String)
    (hlow : 0 < cfg.lowConfidenceThreshold)
    (hmiss : ∀ c ∈ corpus, matchesScope q c = true → sim q c < cfg.cutoff) :
    (synthesize combine agree gen q (retrieve cfg sim corpus q)).1.text =
        refusalAnswerText ∧
    (synthesize combine agree gen q (retrieve cfg sim corpus q)).1.confidence <
        cfg.lowConfidenceThreshold ∧
    (synthesize combine agree gen q (retrieve cfg sim corpus q)).1.sources = [] ∧
    (synthesize combine agree gen q (retrieve cfg sim corpus q)).2 = false := by
  rw [retrieve_eq_nil cfg sim corpus q hmiss]
  exact ⟨rfl, hlow, rfl, rfl⟩

/-- Witness for C1: on the sample corpus every chunk scores 0 against the
quantum-computing query, below the cutoff 1, and synthesis yields the
refusal without invoking generation. -/
theorem claim_C1_refusal_without_generation_witness :
    0 < sampleConfig.lowConfidenceThreshold ∧
    (∀ c ∈ sampleCorpus, matchesScope quantumQuery c = true →
        zeroSim quantumQuery c < sampleConfig.cutoff) ∧
    ((synthesize constCombine zeroAgree sampleGen quantumQuery
        (retrieve sampleConfig zeroSim sampleCorpus quantumQuery)).1.text =
          refusalAnswerText ∧
      (synthesize constCombine zeroAgree sampleGen quantumQuery
        (retrieve sampleConfig zeroSim sampleCorpus quantumQuery)).1.confidence <
          sampleConfig.lowConfidenceThreshold ∧
      (synthesize constCombine zeroAgree sampleGen quantumQuery
        (retrieve sampleConfig zeroSim sampleCorpus quantumQuery)).1.sources = [] ∧
      (synthesize constCombine zeroAgree sampleGen quantumQuery
        (retrieve sampleConfig zeroSim sampleCorpus quantumQuery)).2 = false) :=
  ⟨by decide, by decide,
    claim_C1_refusal_without_generation sampleConfig zeroSim sampleCorpus
      quantumQuery constCombine zeroAgree sampleGen (by decide) (by decide)⟩

/-- C4: retrieval results are sorted by non-increasing similarity, and
among equal similarities the chunk with the earlier sequence position
comes first. -/
theorem claim_C4_retrieval_sorted (cfg : RetrievalConfig)
    (sim : Query → Chunk → Rat) (corpus : List Chunk) (q : Query) :
    List.Pairwise
      (fun a b : Chunk × Rat => b.2 ≤ a.2 ∧ (a.2 = b.2 → a.1.seqPos ≤ b.1.seqPos))
      (retrieve cfg sim corpus q) := by
  have hs : List.Pairwise rankRel (List.insertionSort rankRel
      (((corpus.filter (matchesScope q)).map (fun c => (c, sim q c))).filter
        (fun p => decide (cfg.cutoff ≤ p.2)))) :=
    List.sorted_insertionSort rankRel _
  have ht : List.Pairwise rankRel (retrieve cfg sim corpus q) :=
    hs.sublist (List.take_sublist _ _)
  refine ht.imp ?_
  intro a b hab
  rcases hab with h | ⟨e, hseq⟩
  · exact ⟨le_of_lt h, fun e => absurd (e ▸ h) (lt_irrefl _)⟩
  · exact ⟨le_of_eq e.symm, fun _ => hseq⟩

/-- C5: with module filter M, every retrieved chunk and every chunk cited
in the sources of the synthesized Answer has module tag M; out-of-scope
chunks are excluded by the pre-filter before ranking. -/
theorem claim_C5_module_filter
    (cfg : RetrievalConfig) (sim : Query → Chunk → Rat) (corpus : List Chunk)
    (q : Query) (M : String) (combine : Rat → Rat → Rat)
    (agree : List (Chunk × Rat) → Rat) (gen : Query → List Chunk → String)
    (_hq : q.question ≠ "") (hM : q.moduleFilter = some M) :
    (∀ p ∈ retrieve cfg sim corpus q, p.1.moduleTag = M) ∧
    (∀ src ∈ (synthesize combine agree gen q (retrieve cfg sim corpus q)).1.sources,
        ∃ p ∈ retrieve cfg sim corpus q, p.1.id = src ∧ p.1.moduleTag = M) := by
  have hmod : ∀ p ∈ retrieve cfg sim corpus q, p.1.moduleTag = M := by
    intro p hp
    have hscope := (retrieve_mem cfg sim corpus q p hp).2.1
    simp only [matchesScope, hM] at hscope
    exact eq_of_beq ((Bool.and_eq_true _ _).mp hscope).1
  refine ⟨hmod, ?_⟩
  intro src hsrc
  cases hr : retrieve cfg sim corpus q with
  | nil =>
    rw [hr] at hsrc
    simp [synthesize] at hsrc
  | cons hd tl =>
    obtain ⟨c, sc⟩ := hd
    rw [hr] at hsrc
    have hsrc1 : src ∈ dedup ((((c, sc) :: tl).map Prod.fst).map Chunk.id) := hsrc
    rcases List.mem_map.mp (mem_dedup hsrc1) with ⟨ch, hch, hid⟩
    rcases List.mem_map.mp hch with ⟨p, hp, hpch⟩
    have hpr : p ∈ retrieve cfg sim corpus q := by rw [hr]; exact hp
    exact ⟨p, hp, hpch ▸ hid, hmod p hpr⟩

/-- Witness for C5: the node question filtered to module ros2 on the
sample corpus only ever cites the ros2 chunk. -/
theorem claim_C5_module_filter_witness :
    nodeQuery.question ≠ "" ∧
    nodeQuery.moduleFilter = some "ros2" ∧
    ((∀ p ∈ retrieve filterConfig moduleSim sampleCorpus nodeQuery,
        p.1.moduleTag = "ros2") ∧
      (∀ src ∈ (synthesize constCombine zeroAgree sampleGen nodeQuery
          (retrieve filterConfig moduleSim sampleCorpus nodeQuery)).1.sources,
        ∃ p ∈ retrieve filterConfig moduleSim sampleCorpus nodeQuery,
          p.1.id = src ∧ p.1.moduleTag = "ros2")) :=
  ⟨by decide, by decide,
    claim_C5_module_filter filterConfig moduleSim sampleCorpus nodeQuery "ros2"
      constCombine zeroAgree sampleGen (by decide) (by decide)⟩

/-- C2: with a non-blank input and no request in flight, `sendMessage`
issues exactly one POST to `apiBase ++ "/chat"`; its body is exactly the
three-field request record, with `question` equal to the submitted input,
`module_context` present iff the current module is non-empty, and
`chapter_context` present iff the current chapter is non-empty. -/
theorem claim_C2_request_shape (apiBase : String) (s : WidgetState) (now : Nat)
    (ts : String) (res : FetchResult)
    (hin : jsTrim s.inputValue ≠ "") (hload : s.isLoading = false) :
    (ChatbotWidget.sendMessage apiBase s now ts res).2 =
      some { url := apiBase ++ "/chat", method := "POST"
             body := ChatbotWidget.buildRequestBody s.inputValue s.currentModule
                       s.currentChapter } ∧
    (ChatbotWidget.buildRequestBody s.inputValue s.currentModule
        s.currentChapter).question = s.inputValue ∧
    ((ChatbotWidget.buildRequestBody s.inputValue s.currentModule
        s.currentChapter).module_context ≠ none ↔ s.currentModule ≠ "") ∧
    ((ChatbotWidget.buildRequestBody s.inputValue s.currentModule
        s.currentChapter).chapter_context ≠ none ↔ s.currentChapter ≠ "") := by
  have hguard : ¬(jsTrim s.inputValue = "" ∨ s.isLoading = true) := by
    intro h
    rcases h with h | h
    · exact hin h
    · rw [hload] at h; exact Bool.false_ne_true h
  refine ⟨?_, rfl, ?_, ?_⟩
  · unfold ChatbotWidget.sendMessage ChatbotWidget.sendMessageStart
    rw [if_neg hguard]
  · by_cases hm : s.currentModule = "" <;>
      simp [ChatbotWidget.buildRequestBody, hm]
  · by_cases hc : s.currentChapter = "" <;>
      simp [ChatbotWidget.buildRequestBody, hc]

/-- Witness for C2: a concrete state on a ros2 module page. -/
theorem claim_C2_request_shape_witness :
    jsTrim sampleState.inputValue ≠ "" ∧ sampleState.isLoading = false ∧
    ((ChatbotWidget.sendMessage "http://localhost:8000" sampleState 5 "t"
        FetchResult.networkError).2 =
      some { url := "http://localhost:8000" ++ "/chat", method := "POST"
             body := ChatbotWidget.buildRequestBody sampleState.inputValue
                       sampleState.currentModule sampleState.currentChapter } ∧
      (ChatbotWidget.buildRequestBody sampleState.inputValue
          sampleState.currentModule sampleState.currentChapter).question =
        sampleState.inputValue ∧
      ((ChatbotWidget.buildRequestBody sampleState.inputValue
          sampleState.currentModule sampleState.currentChapter).module_context ≠
          none ↔ sampleState.currentModule ≠ "") ∧
      ((ChatbotWidget.buildRequestBody sampleState.inputValue
          sampleState.currentModule sampleState.currentChapter).chapter_context ≠
          none ↔ sampleState.currentChapter ≠ "")) :=
  ⟨by decide, by decide,
    claim_C2_request_shape "http://localhost:8000" sampleState 5 "t"
      FetchResult.networkError (by decide) (by decide)⟩

/-- C8: when the input is blank after trimming, or a request is already
in flight (`isLoading`), `sendMessage` issues no HTTP request and leaves
the whole widget state unchanged; hence a widget with a request in
flight never issues another. -/
theorem claim_C8_guard_frame (apiBase : String) (s : WidgetState) (now : Nat)
    (ts : String) (res : FetchResult)
    (hguard : jsTrim s.inputValue = "" ∨ s.isLoading = true) :
    ChatbotWidget.sendMessage apiBase s now ts res = (s, none) := by
  unfold ChatbotWidget.sendMessage ChatbotWidget.sendMessageStart
  rw [if_pos hguard]

theorem sendMessageStart_run (apiBase : String) (s : WidgetState) (now : Nat)
    (ts : String) (hin : jsTrim s.inputValue ≠ "") (hload : s.isLoading = false) :
    ChatbotWidget.sendMessageStart apiBase s now ts =
      ({ s with
          messages := s.messages ++ [ChatbotWidget.mkUserMessage now s.inputValue ts]
          inputValue := ""
          isLoading := true },
       some { url := apiBase ++ "/chat", method := "POST"
              body := ChatbotWidget.buildRequestBody s.inputValue s.currentModule
                        s.currentChapter }) := by
  have hguard : ¬(jsTrim s.inputValue = "" ∨ s.isLoading = true) := by
    intro h
    rcases h with h | h
    · exact hin h
    · rw [hload] at h; exact Bool.false_ne_true h
  unfold ChatbotWidget.sendMessageStart
  rw [if_neg hguard]

theorem sendMessage_run (apiBase : String) (s : WidgetState) (now : Nat)
    (ts : String) (res : FetchResult)
    (hin : jsTrim s.inputValue ≠ "") (hload : s.isLoading = false) :
    ChatbotWidget.sendMessage apiBase s now ts res =
      (ChatbotWidget.sendMessageFinish
        { s with
            messages := s.messages ++ [ChatbotWidget.mkUserMessage now s.inputValue ts]
            inputValue := ""
            isLoading := true } now ts res,
       some { url := apiBase ++ "/chat", method := "POST"
              body := ChatbotWidget.buildRequestBody s.inputValue s.currentModule
                        s.currentChapter }) := by
  unfold ChatbotWidget.sendMessage
  rw [sendMessageStart_run apiBase s now ts hin hload]

theorem sendMessageFinish_failure (st : WidgetState) (now : Nat) (ts : String)
    (res : FetchResult) (hfail : isFailureOutcome res) :
    ChatbotWidget.sendMessageFinish st now ts res =
      { st with
          messages := st.messages ++ [ChatbotWidget.mkErrorMessage (now + 1) ts]
          isLoading := false } := by
  cases res with
  | networkError => rfl
  | success status body =>
    unfold isFailureOutcome at hfail
    rcases hfail with hbad | hnone
    · simp only [ChatbotWidget.sendMessageFinish]
      rw [if_neg hbad]
    · subst hnone
      simp only [ChatbotWidget.sendMessageFinish]
      by_cases hok : 200 ≤ status ∧ status ≤ 299
      · rw [if_pos hok]
      · rw [if_neg hok]

theorem sendMessageFinish_ok (st : WidgetState) (now : Nat) (ts : String)
    (status : Nat) (data : ChatResponse) (hok : 200 ≤ status ∧ status ≤ 299) :
    ChatbotWidget.sendMessageFinish st now ts
        (FetchResult.success status (some data)) =
      { st with
          messages := st.messages ++ [ChatbotWidget.mkBotMessage (now + 1) data ts]
          isLoading := false } := by
  simp only [ChatbotWidget.sendMessageFinish]
  rw [if_pos hok]

/-- C3: any non-2xx response and any network or parse failure is handled
by appending a single bot message with the fixed retry text, marked as an
error, and clearing the loading flag; the resulting state is the same as
for a plain network failure, so nothing from the response body is read or
interpreted. -/
theorem claim_C3_error_path (apiBase : String) (s : WidgetState) (now : Nat)
    (ts : String) (res : FetchResult)
    (hin : jsTrim s.inputValue ≠ "") (hload : s.isLoading = false)
    (hfail : isFailureOutcome res) :
    (ChatbotWidget.sendMessage apiBase s now ts res).1.messages =
      s.messages ++ [ChatbotWidget.mkUserMessage now s.inputValue ts,
                     ChatbotWidget.mkErrorMessage (now + 1) ts] ∧
    (ChatbotWidget.mkErrorMessage (now + 1) ts).text =
      "Sorry, I encountered an error processing your question. Please try again." ∧
    (ChatbotWidget.mkErrorMessage (now + 1) ts).isError = true ∧
    (ChatbotWidget.mkErrorMessage (now + 1) ts).sender = "bot" ∧
    (ChatbotWidget.sendMessage apiBase s now ts res).1.isLoading = false ∧
    (ChatbotWidget.sendMessage apiBase s now ts res).1 =
      (ChatbotWidget.sendMessage apiBase s now ts FetchResult.networkError).1 := by
  have hnet : isFailureOutcome FetchResult.networkError := trivial
  rw [sendMessage_run apiBase s now ts res hin hload,
    sendMessage_run apiBase s now ts FetchResult.networkError hin hload,
    sendMessageFinish_failure _ now ts res hfail,
    sendMessageFinish_failure _ now ts FetchResult.networkError hnet]
  refine ⟨by simp, rfl, rfl, rfl, rfl, rfl⟩

/-- Witness for C3: a 500 response on the sample state appends the fixed
error message. -/
theorem claim_C3_error_path_witness :
    jsTrim sampleState.inputValue ≠ "" ∧ sampleState.isLoading = false ∧
    isFailureOutcome (FetchResult.success 500 (some sampleResponse)) ∧
    ((ChatbotWidget.sendMessage "http://localhost:8000" sampleState 5 "t"
        (FetchResult.success 500 (some sampleResponse))).1.messages =
      sampleState.messages ++
        [ChatbotWidget.mkUserMessage 5 sampleState.inputValue "t",
         ChatbotWidget.mkErrorMessage (5 + 1) "t"] ∧
      (ChatbotWidget.mkErrorMessage (5 + 1) "t").text =
        "Sorry, I encountered an error processing your question. Please try again." ∧
      (ChatbotWidget.mkErrorMessage (5 + 1) "t").isError = true ∧
      (ChatbotWidget.mkErrorMessage (5 + 1) "t").sender = "bot" ∧
      (ChatbotWidget.sendMessage "http://localhost:8000" sampleState 5 "t"
        (FetchResult.success 500 (some sampleResponse))).1.isLoading = false ∧
      (ChatbotWidget.sendMessage "http://localhost:8000" sampleState 5 "t"
        (FetchResult.success 500 (some sampleResponse))).1 =
        (ChatbotWidget.sendMessage "http://localhost:8000" sampleState 5 "t"
          FetchResult.networkError).1) :=
  ⟨by decide, by decide, Or.inl (by decide),
    claim_C3_error_path "http://localhost:8000" sampleState 5 "t"
      (FetchResult.success 500 (some sampleResponse)) (by decide) (by decide)
      (Or.inl (by decide))⟩

/-- C6: a 2xx response with a parsed body is stored verbatim — the bot
message keeps the answer as its text and carries the sources and
confidence fields unmodified. -/
theorem claim_C6_verbatim_response (apiBase : String) (s : WidgetState)
    (now : Nat) (ts : String) (status : Nat) (data : ChatResponse)
    (hin : jsTrim s.inputValue ≠ "") (hload : s.isLoading = false)
    (hok : 200 ≤ status ∧ status ≤ 299) :
    (ChatbotWidget.sendMessage apiBase s now ts
        (FetchResult.success status (some data))).1.messages =
      s.messages ++ [ChatbotWidget.mkUserMessage now s.inputValue ts,
                     ChatbotWidget.mkBotMessage (now + 1) data ts] ∧
    (ChatbotWidget.mkBotMessage (now + 1) data ts).text = data.answer ∧
    (ChatbotWidget.mkBotMessage (now + 1) data ts).sources = some data.sources ∧
    (ChatbotWidget.mkBotMessage (now + 1) data ts).confidence =
      some data.confidence ∧
    (ChatbotWidget.mkBotMessage (now + 1) data ts).sender = "bot" ∧
    (ChatbotWidget.sendMessage apiBase s now ts
        (FetchResult.success status (some data))).1.isLoading = false := by
  rw [sendMessage_run apiBase s now ts (FetchResult.success status (some data))
      hin hload,
    sendMessageFinish_ok _ now ts status data hok]
  refine ⟨by simp, rfl, rfl, rfl, rfl, rfl⟩

/-- Witness for C6: a 200 response with the sample body lands verbatim in
the appended bot message. -/
theorem claim_C6_verbatim_response_witness :
    jsTrim sampleState.inputValue ≠ "" ∧ sampleState.isLoading = false ∧
    (200 ≤ 200 ∧ 200 ≤ 299) ∧
    ((ChatbotWidget.sendMessage "http://localhost:8000" sampleState 5 "t"
        (FetchResult.success 200 (some sampleResponse))).1.messages =
      sampleState.messages ++
        [ChatbotWidget.mkUserMessage 5 sampleState.inputValue "t",
         ChatbotWidget.mkBotMessage (5 + 1) sampleResponse "t"] ∧
      (ChatbotWidget.mkBotMessage (5 + 1) sampleResponse "t").text =
        sampleResponse.answer ∧
      (ChatbotWidget.mkBotMessage (5 + 1) sampleResponse "t").sources =
        some sampleResponse.sources ∧
      (ChatbotWidget.mkBotMessage (5 + 1) sampleResponse "t").confidence =
        some sampleResponse.confidence ∧
      (ChatbotWidget.mkBotMessage (5 + 1) sampleResponse "t").sender = "bot" ∧
      (ChatbotWidget.sendMessage "http://localhost:8000" sampleState 5 "t"
        (FetchResult.success 200 (some sampleResponse))).1.isLoading = false) :=
  ⟨by decide, by decide, by decide,
    claim_C6_verbatim_response "http://localhost:8000" sampleState 5 "t" 200
      sampleResponse (by decide) (by decide) (by decide)⟩

/-- C7: the serialized request body depends only on the input value and
the current module/chapter context — two states differing arbitrarily in
conversation history (and in clock or timestamp) produce byte-identical
bodies. -/
theorem claim_C7_history_independent (apiBase : String) (s1 s2 : WidgetState)
    (now1 now2 : Nat) (ts1 ts2 : String) (res1 res2 : FetchResult)
    (hi : s1.inputValue = s2.inputValue)
    (hm : s1.currentModule = s2.currentModule)
    (hc : s1.currentChapter = s2.currentChapter)
    (hl : s1.isLoading = s2.isLoading) :
    Option.map (fun r => serializeChatRequest r.body)
        (ChatbotWidget.sendMessage apiBase s1 now1 ts1 res1).2 =
      Option.map (fun r => serializeChatRequest r.body)
        (ChatbotWidget.sendMessage apiBase s2 now2 ts2 res2).2 := by
  have key : ∀ (s : WidgetState) (now : Nat) (ts : String) (res : FetchResult),
      (ChatbotWidget.sendMessage apiBase s now ts res).2 =
        (ChatbotWidget.sendMessageStart apiBase s now ts).2 := by
    intro s now ts res
    unfold ChatbotWidget.sendMessage
    cases h : ChatbotWidget.sendMessageStart apiBase s now ts with
    | mk st r =>
      cases r with
      | none => simp
      | some req => simp
  have h2 : (ChatbotWidget.sendMessageStart apiBase s1 now1 ts1).2 =
      (ChatbotWidget.sendMessageStart apiBase s2 now2 ts2).2 := by
    unfold ChatbotWidget.sendMessageStart
    rw [hi, hm, hc, hl]
    by_cases hg : jsTrim s2.inputValue = "" ∨ s2.isLoading = true
    · rw [if_pos hg, if_pos hg]
    · rw [if_neg hg, if_neg hg]
  rw [key s1 now1 ts1 res1, key s2 now2 ts2 res2, h2]

/-- Witness for C7: the sample state and the same state with a different
conversation history serialize the same body. -/
theorem claim_C7_history_independent_witness :
    sampleState.inputValue = sampleHistoryState.inputValue ∧
    sampleState.currentModule = sampleHistoryState.currentModule ∧
    sampleState.currentChapter = sampleHistoryState.currentChapter ∧
    sampleState.isLoading = sampleHistoryState.isLoading ∧
    Option.map (fun r => serializeChatRequest r.body)
        (ChatbotWidget.sendMessage "http://localhost:8000" sampleState 5 "t"
          FetchResult.networkError).2 =
      Option.map (fun r => serializeChatRequest r.body)
        (ChatbotWidget.sendMessage "http://localhost:8000" sampleHistoryState 9
          "u" (FetchResult.success 200 (some sampleResponse))).2 :=
  ⟨rfl, rfl, rfl, rfl,
    claim_C7_history_independent "http://localhost:8000" sampleState
      sampleHistoryState 5 9 "t" "u" FetchResult.networkError
      (FetchResult.success 200 (some sampleResponse)) rfl rfl rfl rfl⟩

/-- Witness for C8: a loading state with a non-blank input still sends
nothing and is left untouched. -/
theorem claim_C8_guard_frame_witness :
    (jsTrim { sampleState with isLoading := true }.inputValue = "" ∨
      { sampleState with isLoading := true }.isLoading = true) ∧
    ChatbotWidget.sendMessage "http://localhost:8000"
        { sampleState with isLoading := true } 5 "t" FetchResult.networkError =
      ({ sampleState with isLoading := true }, none) :=
  ⟨by decide,
    claim_C8_guard_frame "http://localhost:8000"
      { sampleState with isLoading := true } 5 "t" FetchResult.networkError
      (by decide)⟩

/-- C9: the Docusaurus `ChatbotWidget` and the original frontend
`RAGChatbot` have behaviorally equivalent `sendMessage` logic — the same
guard, request construction, success-path bot message, and error-path
message — as definitional equality of the embedded pipelines. -/
theorem claim_C9_widgets_equivalent (apiBase : String) (s : WidgetState)
    (now : Nat) (ts : String) (res : FetchResult) :
    RAGChatbot.sendMessage apiBase s now ts res =
      ChatbotWidget.sendMessage apiBase s now ts res ∧
    RAGChatbot.sendMessageStart apiBase s now ts =
      ChatbotWidget.sendMessageStart apiBase s now ts ∧
    RAGChatbot.sendMessageFinish s now ts res =
      ChatbotWidget.sendMessageFinish s now ts res ∧
    RAGChatbot.buildRequestBody s.inputValue s.currentModule s.currentChapter =
      ChatbotWidget.buildRequestBody s.inputValue s.currentModule
        s.currentChapter ∧
    RAGChatbot.mkErrorMessage (now + 1) ts =
      ChatbotWidget.mkErrorMessage (now + 1) ts ∧
    RAGChatbot.mkBotMessage (now + 1) sampleResponse ts =
      ChatbotWidget.mkBotMessage (now + 1) sampleResponse ts :=
  ⟨rfl, rfl, rfl, rfl, rfl, rfl⟩

/-- C10: the page-context extraction sets the module to the third part of
the pathname split on "/" whenever that part differs from the literal
"modules" (so in particular whenever it is non-empty and differs from it),
omits `module_context` when that part is empty or equals "modules", sets
the chapter to the fourth part when there are at least four parts, and for
pathnames with fewer than three parts omits both context fields. -/
theorem claim_C10_page_context (pathname question : String) :
    (3 ≤ (jsSplit pathname '/').length →
      ((jsSplit pathname '/').getD 2 "" ≠ "modules" →
        (ChatbotWidget.pageContext pathname).1 = (jsSplit pathname '/').getD 2 "") ∧
      ((jsSplit pathname '/').getD 2 "" = "" ∨
          (jsSplit pathname '/').getD 2 "" = "modules" →
        (ChatbotWidget.buildRequestBody question
            (ChatbotWidget.pageContext pathname).1
            (ChatbotWidget.pageContext pathname).2).module_context = none) ∧
      (4 ≤ (jsSplit pathname '/').length →
        (ChatbotWidget.pageContext pathname).2 =
          (jsSplit pathname '/').getD 3 "")) ∧
    ((jsSplit pathname '/').length < 3 →
      (ChatbotWidget.buildRequestBody question
          (ChatbotWidget.pageContext pathname).1
          (ChatbotWidget.pageContext pathname).2).module_context = none ∧
      (ChatbotWidget.buildRequestBody question
          (ChatbotWidget.pageContext pathname).1
          (ChatbotWidget.pageContext pathname).2).chapter_context = none) := by
  have hpc : ChatbotWidget.pageContext pathname =
      (if 3 ≤ (jsSplit pathname '/').length then
        ((if (jsSplit pathname '/').getD 2 "" ≠ "modules" then
            (jsSplit pathname '/').getD 2 "" else ""),
         (if 4 ≤ (jsSplit pathname '/').length then
            (jsSplit pathname '/').getD 3 "" else ""))
      else ("", "")) := rfl
  constructor
  · intro h3
    rw [hpc, if_pos h3]
    refine ⟨?_, ?_, ?_⟩
    · intro hne
      rw [if_pos hne]
    · intro hcase
      rcases hcase with he | hmod
      · rw [he]
        simp [ChatbotWidget.buildRequestBody]
      · rw [hmod]
        simp [ChatbotWidget.buildRequestBody]
    · intro h4
      rw [if_pos h4]
  · intro hlt
    rw [hpc, if_neg (by omega), ChatbotWidget.buildRequestBody]
    simp

/-- Witness for C10: the pathname of a chapter page inside a module
yields that module and chapter, and a root pathname yields no context. -/
theorem claim_C10_page_context_witness :
    3 ≤ (jsSplit "/modules/ros2/nodes" '/').length ∧
    (jsSplit "/modules/ros2/nodes" '/').getD 2 "" ≠ "modules" ∧
    (ChatbotWidget.pageContext "/modules/ros2/nodes").1 =
      (jsSplit "/modules/ros2/nodes" '/').getD 2 "" ∧
    (ChatbotWidget.pageContext "/modules/ros2/nodes").2 =
      (jsSplit "/modules/ros2/nodes" '/').getD 3 "" ∧
    (jsSplit "/" '/').length < 3 ∧
    (ChatbotWidget.buildRequestBody "q" (ChatbotWidget.pageContext "/").1
        (ChatbotWidget.pageContext "/").2).module_context = none ∧
    (ChatbotWidget.buildRequestBody "q" (ChatbotWidget.pageContext "/").1
        (ChatbotWidget.pageContext "/").2).chapter_context = none :=
  ⟨by decide, by decide,
    ((claim_C10_page_context "/modules/ros2/nodes" "q").1 (by decide)).1
      (by decide),
    ((claim_C10_page_context "/modules/ros2/nodes" "q").1 (by decide)).2.2
      (by decide),
    by decide,
    ((claim_C10_page_context "/" "q").2 (by decide)).1,
    ((claim_C10_page_context "/" "q").2 (by decide)).2⟩
